import Mathlib

/-!
Verification of the ActionCable `Subscription` component
(`actioncable/subscription.py`): a shallow embedding of the subscription
state machine, its outbound message queue, and the JSON frames it emits,
together with proofs of the specified behaviour.

Modelling conventions:
* Python mutation becomes explicit state passing: every operation takes a
  `Subscription` and returns the updated `Subscription` together with the
  chronological list of observable `Effect`s it produced (frames handed to
  `connection.send`, invocations of the `on_event` callback, invocations of
  the `receive_callback`).
* The `connection` collaborator is reduced to what the source reads from
  it: the boolean `connection.connected` flag (a parameter of `create`) and
  the `connection.send` sink (recorded as `Effect.sent`).  The uuid / registry
  side of `__init__` is not needed by any property proved here.
* Callbacks are modelled by presence flags (`on_event_set`,
  `receive_callback_set`) plus effects recording each invocation and its
  argument, since the callbacks' own behaviour is external to this core.
-/

/-- JSON values, as produced by the Python code: `json.dumps` input
(the caller-supplied identifier, `message.raw_message()` payloads) and
inbound frame field values. Object fields keep the caller's order. -/
inductive Json where
  | null : Json
  | bool : Bool → Json
  | num : Int → Json
  | str : String → Json
  | arr : List Json → Json
  | obj : List (String × Json) → Json

/-- Lower-case hexadecimal digit. -/
def hexDigit (n : Nat) : Char :=
  if n < 10 then Char.ofNat (48 + n) else Char.ofNat (87 + n)

/-- Four-digit lower-case hexadecimal rendering, as in Python \uXXXX escapes. -/
def toHex4 (n : Nat) : String :=
  String.mk [hexDigit (n / 4096 % 16), hexDigit (n / 256 % 16),
             hexDigit (n / 16 % 16), hexDigit (n % 16)]

/-- Escaping of one character inside a JSON string literal, following
CPython `json.encoder` with the default `ensure_ascii=True`. -/
def escapeChar (c : Char) : String :=
  if c = '"' then "\\\""
  else if c = '\\' then "\\\\"
  else if c = '\n' then "\\n"
  else if c = '\r' then "\\r"
  else if c = '\t' then "\\t"
  else if c = Char.ofNat 8 then "\\b"
  else if c = Char.ofNat 12 then "\\f"
  else if c.toNat < 32 then "\\u" ++ toHex4 c.toNat
  else if c.toNat < 127 then String.mk [c]
  else if c.toNat < 65536 then "\\u" ++ toHex4 c.toNat
  else
    "\\u" ++ toHex4 (55296 + (c.toNat - 65536) / 1024)
      ++ "\\u" ++ toHex4 (56320 + (c.toNat - 65536) % 1024)

/-- JSON string literal rendering: quotes around the escaped characters. -/
def encodeString (s : String) : String :=
  "\"" ++ String.join (s.data.map escapeChar) ++ "\""

mutual

/-- Python `json.dumps` with default arguments: item separator
a comma followed by a space, key separator a colon followed by a space
(CPython uses separators (\x22, \x22 and \x22: \x22) when `indent` is None). -/
def dumps : Json → String
  | Json.null => "null"
  | Json.bool true => "true"
  | Json.bool false => "false"
  | Json.num n => toString n
  | Json.str s => encodeString s
  | Json.arr xs => "[" ++ dumpsList xs ++ "]"
  | Json.obj fs => "\x7b" ++ dumpsFields fs ++ "\x7d"

/-- Comma-space separated rendering of array elements. -/
def dumpsList : List Json → String
  | [] => ""
  | [x] => dumps x
  | x :: y :: xs => dumps x ++ ", " ++ dumpsList (y :: xs)

/-- Comma-space separated rendering of object fields, keys in given order. -/
def dumpsFields : List (String × Json) → String
  | [] => ""
  | [(k, v)] => encodeString k ++ ": " ++ dumps v
  | (k, v) :: f :: fs => encodeString k ++ ": " ++ dumps v ++ ", " ++ dumpsFields (f :: fs)

end

example : dumps (Json.obj [("channel", Json.str "ChatChannel"), ("room", Json.str "1")])
    = "\x7b\"channel\": \"ChatChannel\", \"room\": \"1\"\x7d" := by decide

example : dumps (Json.arr [Json.num 1, Json.num (-2), Json.null, Json.bool true])
    = "[1, -2, null, true]" := by decide

example : dumps (Json.obj []) = "\x7b\x7d" := by decide

/-- An outbound application message (the `message` argument of
`Subscription.send`): the source only ever calls its `raw_message()`
accessor, so it is modelled by that payload. -/
structure Message where
  raw_message : Json

/-- One observable effect of a subscription operation, in chronological
order of occurrence:
* `sent frame` — the frame object handed to `connection.send(data)`;
* `event st` — an invocation `self.on_event(st, None)` made by
  `_on_event` (only emitted when the callback is set);
* `callback payload` — an invocation `self.receive_callback(payload)`. -/
inductive Effect where
  | sent : Json → Effect
  | event : String → Effect
  | callback : Json → Effect

/-- True exactly on `Effect.sent` effects (frames given to the connection). -/
def Effect.isSent : Effect → Bool
  | Effect.sent _ => true
  | _ => false

/-- The mutable fields of a `Subscription` instance that its operations
read or write.  `on_event_set` models `self.on_event is not None`,
`receive_callback_set` models `self.receive_callback is not None`
(the callables themselves are external). The `uuid`, `connection` and
`logger` attributes are not part of any behaviour proved here. -/
structure Subscription where
  identifier : Json
  state : String
  message_queue : List Message
  on_event_set : Bool
  receive_callback_set : Bool

namespace Subscription

/-- `Subscription.__init__`: the fresh instance.  The source initializes
`self.state = 'unsubcribed'` — with that exact spelling (a typo in the
source, reproduced faithfully) — and an empty `self.message_queue`;
`self.receive_callback = None`. -/
def init (identifier : Json) (on_event_set : Bool) : Subscription :=
  { identifier := identifier
    state := "unsubcribed"
    message_queue := []
    on_event_set := on_event_set
    receive_callback_set := false }

/-- `Subscription._identifier_string`: `json.dumps(self.identifier)`. -/
def identifier_string (s : Subscription) : String :=
  dumps s.identifier

/-- `Subscription._set_state`: assigns the state field, then reports it
through `_on_event(state)` (which invokes `self.on_event(state, None)`
when the callback is set, and returns immediately otherwise). -/
def set_state (s : Subscription) (st : String) : Subscription × List Effect :=
  ({ s with state := st }, if s.on_event_set then [Effect.event st] else [])

/-- The subscribe frame built by `create`:
`{'command': 'subscribe', 'identifier': self._identifier_string()}`. -/
def subscribe_frame (s : Subscription) : Json :=
  Json.obj [("command", Json.str "subscribe"),
            ("identifier", Json.str s.identifier_string)]

/-- The unsubscribe frame built by `remove`:
`{'command': 'unsubscribe', 'identifier': self._identifier_string()}`. -/
def unsubscribe_frame (s : Subscription) : Json :=
  Json.obj [("command", Json.str "unsubscribe"),
            ("identifier", Json.str s.identifier_string)]

/-- The message frame built by `send`:
`{'command': 'message', 'identifier': self._identifier_string(),
'data': message.raw_message()}`. -/
def message_frame (s : Subscription) (m : Message) : Json :=
  Json.obj [("command", Json.str "message"),
            ("identifier", Json.str s.identifier_string),
            ("data", m.raw_message)]

/-- `Subscription.create`: if `self.connection.connected` is false, the
state field is assigned `'connection_pending'` directly (not via
`_set_state`) and the method returns; otherwise the subscribe frame is
sent and then `_set_state('pending')` runs. -/
def create (connected : Bool) (s : Subscription) : Subscription × List Effect :=
  if !connected then
    ({ s with state := "connection_pending" }, [])
  else
    let r := s.set_state "pending"
    (r.1, Effect.sent s.subscribe_frame :: r.2)

/-- `Subscription.remove`: unconditionally sends the unsubscribe frame
(the method never reads `connection.connected`, hence no `connected`
parameter here), then `_set_state('unsubscribed')`. -/
def remove (s : Subscription) : Subscription × List Effect :=
  let r := s.set_state "unsubscribed"
  (r.1, Effect.sent s.unsubscribe_frame :: r.2)

/-- `Subscription.send`: in state `'pending'` or `'connection_pending'`
the message is appended to `self.message_queue` and nothing is sent; in
state `'unsubscribed'` or `'rejected'` the message is discarded; in any
other state the message frame is sent.  No branch raises. -/
def send (s : Subscription) (m : Message) : Subscription × List Effect :=
  if s.state = "pending" ∨ s.state = "connection_pending" then
    ({ s with message_queue := s.message_queue ++ [m] }, [])
  else if s.state = "unsubscribed" ∨ s.state = "rejected" then
    (s, [])
  else
    (s, [Effect.sent (s.message_frame m)])

/-- The `for message in self.message_queue: self.send(message)` loop of
`_subscribed`, threaded over an explicit list.  The loop runs with the
state already `'subscribed'`, in which `send` never touches
`self.message_queue`, so iterating this snapshot of the list is the same
as Python's in-place iteration. -/
def flush (s : Subscription) : List Message → Subscription × List Effect
  | [] => (s, [])
  | m :: ms =>
    let r := s.send m
    let r2 := flush r.1 ms
    (r2.1, r.2 ++ r2.2)

/-- `Subscription._subscribed`: `_set_state('subscribed')` followed by
re-sending every queued message through `send`. -/
def subscribed (s : Subscription) : Subscription × List Effect :=
  let r := s.set_state "subscribed"
  let r2 := flush r.1 r.1.message_queue
  (r2.1, r.2 ++ r2.2)

/-- `Subscription._rejected`: `_set_state('rejected')` followed by
`self.message_queue = []`. -/
def rejected (s : Subscription) : Subscription × List Effect :=
  let r := s.set_state "rejected"
  ({ r.1 with message_queue := [] }, r.2)

end Subscription

/-- Python-dict field lookup (`'k' in data` / `data['k']`) for an inbound
frame, modelled as an association list with unique keys. -/
def dictGet (data : List (String × Json)) (k : String) : Option Json :=
  match data with
  | [] => none
  | (k', v) :: rest => if k' = k then some v else dictGet rest k

/-- `Subscription.received`: reads `data['type']` when present, then
dispatches: `'confirm_subscription'` runs `_subscribed`,
`'reject_subscription'` runs `_rejected`; otherwise, when the receive
callback is set and the frame has a `message` field, the callback is
invoked with `data['message']`; any other frame only logs. The current
state is never consulted. -/
def Subscription.received (s : Subscription) (data : List (String × Json)) :
    Subscription × List Effect :=
  match dictGet data "type" with
  | some (Json.str "confirm_subscription") => s.subscribed
  | some (Json.str "reject_subscription") => s.rejected
  | _ =>
    match dictGet data "message" with
    | some payload =>
      if s.receive_callback_set then (s, [Effect.callback payload]) else (s, [])
    | none => (s, [])

/-- `Subscription.on_receive`: installs the receive callback. -/
def Subscription.on_receive (s : Subscription) : Subscription :=
  { s with receive_callback_set := true }

namespace Subscription

theorem send_of_subscribed (s : Subscription) (h : s.state = "subscribed") (m : Message) :
    s.send m = (s, [Effect.sent (s.message_frame m)]) := by
  simp [send, h]

theorem send_of_unsubscribed_or_rejected (s : Subscription) (m : Message)
    (h : s.state = "unsubscribed" ∨ s.state = "rejected") :
    s.send m = (s, []) := by
  rcases h with h | h <;> simp [send, h]

theorem flush_of_subscribed (s : Subscription) (h : s.state = "subscribed") :
    ∀ q : List Message, flush s q = (s, q.map fun m => Effect.sent (s.message_frame m)) := by
  intro q
  induction q with
  | nil => rfl
  | cons m ms ih => simp [flush, send_of_subscribed s h m, ih]

theorem subscribed_eq (s : Subscription) :
    s.subscribed =
      ({ s with state := "subscribed" },
        (if s.on_event_set then [Effect.event "subscribed"] else [])
          ++ s.message_queue.map fun m => Effect.sent (s.message_frame m)) := by
  have h : ({ s with state := "subscribed" } : Subscription).state = "subscribed" := rfl
  simp [subscribed, set_state, flush_of_subscribed _ h, message_frame, identifier_string]

theorem rejected_eq (s : Subscription) :
    s.rejected = ({ s with state := "rejected", message_queue := [] },
      if s.on_event_set then [Effect.event "rejected"] else []) := by
  simp [rejected, set_state]

theorem received_confirm (s : Subscription) :
    s.received [("type", Json.str "confirm_subscription")] = s.subscribed := rfl

theorem received_reject (s : Subscription) :
    s.received [("type", Json.str "reject_subscription")] = s.rejected := rfl

end Subscription

/-- C1: the claim states a fresh `Subscription` starts in state
`unsubscribed`.  The source (subscription.py line 30) actually assigns the
misspelled string `'unsubcribed'`, which differs from `'unsubscribed'` and
from every one of the five legal states; this theorem evaluates the
constructor and records the discrepancy. -/
theorem C1_initial_state_misspelled (ident : Json) (oe : Bool) :
    (Subscription.init ident oe).state = "unsubcribed" ∧
    (Subscription.init ident oe).state ≠ "unsubscribed" :=
  ⟨rfl, fun h => by simp [Subscription.init] at h⟩

/-- C1 consequence: because the initial state matches neither guard of
`send`, a `send` on a freshly constructed subscription falls through to the
default branch and emits a message frame instead of discarding it (the
behaviour the correct spelling would select), showing the typo is a slip
contradicting the code's own `send` dispatch. -/
theorem C1_fresh_send_emits_frame (ident : Json) (oe : Bool) (m : Message) :
    ((Subscription.init ident oe).send m).2 =
      [Effect.sent ((Subscription.init ident oe).message_frame m)] := by
  simp [Subscription.send, Subscription.init]

/-- C3 counterexample: with identifier
`{"channel": "ChatChannel", "room": "1"}` and an established connection,
`create()` sends the subscribe frame whose identifier field is the
`json.dumps` rendering with a space after each colon and comma, which is
not byte-identical to the compact string the claim specifies. -/
theorem C3_counterexample_identifier_not_compact :
    ((Subscription.init
        (Json.obj [("channel", Json.str "ChatChannel"), ("room", Json.str "1")])
        false).create true).2
      = [Effect.sent (Json.obj [("command", Json.str "subscribe"),
          ("identifier",
            Json.str "\x7b\"channel\": \"ChatChannel\", \"room\": \"1\"\x7d")])] ∧
    "\x7b\"channel\": \"ChatChannel\", \"room\": \"1\"\x7d"
      ≠ "\x7b\"channel\":\"ChatChannel\",\"room\":\"1\"\x7d" :=
  ⟨rfl, by decide⟩

/-- C3 amended: with identifier `{"channel": "ChatChannel", "room": "1"}`
and an established connection, `create()` sends exactly one frame — the
subscribe frame whose identifier field is the `json.dumps` default
rendering `\x7b"channel": "ChatChannel", "room": "1"\x7d` (a space after
each colon and comma, keys in caller order) — and the state becomes
`pending`. -/
theorem C3_create_sends_dumps_identifier :
    ((Subscription.init
        (Json.obj [("channel", Json.str "ChatChannel"), ("room", Json.str "1")])
        false).create true).1.state = "pending" ∧
    ((Subscription.init
        (Json.obj [("channel", Json.str "ChatChannel"), ("room", Json.str "1")])
        false).create true).2
      = [Effect.sent (Json.obj [("command", Json.str "subscribe"),
          ("identifier",
            Json.str "\x7b\"channel\": \"ChatChannel\", \"room\": \"1\"\x7d")])] :=
  ⟨rfl, rfl⟩

/-- C6: from every state (including `unsubscribed` and `rejected`),
`remove()` sends exactly one frame — the unsubscribe frame carrying the
canonical identifier — never consults connectivity (the embedded `remove`
takes no connected flag because the source never reads
`connection.connected`), and leaves the state `unsubscribed`. -/
theorem C6_remove_always_unsubscribes (s : Subscription) :
    s.remove.1.state = "unsubscribed" ∧
    s.remove.2.filter Effect.isSent = [Effect.sent s.unsubscribe_frame] ∧
    s.remove.2 = Effect.sent s.unsubscribe_frame
      :: (if s.on_event_set then [Effect.event "unsubscribed"] else []) := by
  refine ⟨rfl, ?_, ?_⟩ <;>
    cases h : s.on_event_set <;>
      simp [Subscription.remove, Subscription.set_state, h, Effect.isSent]

/-- C7: while the state is `unsubscribed` or `rejected`, `send(m)` emits
no frame and no other effect, and returns the subscription entirely
unchanged (in particular the queue is untouched); the embedding is a total
function, so no exception is possible. -/
theorem C7_send_dropped_when_unsubscribed_or_rejected (s : Subscription) (m : Message)
    (h : s.state = "unsubscribed" ∨ s.state = "rejected") :
    s.send m = (s, []) :=
  Subscription.send_of_unsubscribed_or_rejected s m h

/-- A concrete subscription sitting in state `unsubscribed` with one
queued message, used to witness C7. -/
def c7Sample : Subscription :=
  { identifier := Json.str "c"
    state := "unsubscribed"
    message_queue := [Message.mk (Json.str "a")]
    on_event_set := true
    receive_callback_set := false }

/-- C7 witness: on the concrete subscription `c7Sample` (state
`unsubscribed`, nonempty queue), `send` returns it unchanged with no
effects. -/
theorem C7_witness :
    (c7Sample.state = "unsubscribed" ∨ c7Sample.state = "rejected") ∧
    c7Sample.send (Message.mk (Json.str "b")) = (c7Sample, []) :=
  ⟨Or.inl rfl,
    C7_send_dropped_when_unsubscribed_or_rejected c7Sample
      (Message.mk (Json.str "b")) (Or.inl rfl)⟩

/-- C9: `received` dispatches purely on the frame's `type` field: a
`confirm_subscription` frame runs the `subscribed` transition and a
`reject_subscription` frame runs the `rejected` transition from every
state whatsoever — the current state is never consulted. -/
theorem C9_received_ignores_current_state (s : Subscription) :
    s.received [("type", Json.str "confirm_subscription")] = s.subscribed ∧
    s.received [("type", Json.str "reject_subscription")] = s.rejected ∧
    (s.received [("type", Json.str "confirm_subscription")]).1.state = "subscribed" ∧
    (s.received [("type", Json.str "reject_subscription")]).1.state = "rejected" := by
  refine ⟨rfl, rfl, ?_, ?_⟩
  · rw [Subscription.received_confirm, Subscription.subscribed_eq]
  · rw [Subscription.received_reject, Subscription.rejected_eq]

/-- C2 counterexample: a subscription whose `on_event` callback is set
undergoes the transition to `connection_pending` (via `create()` with the
connection not established) — the state field changes, yet no
`Effect.event` is produced, because the source assigns `self.state`
directly instead of going through `_set_state`. -/
theorem C2_counterexample_connection_pending_emits_no_event :
    (Subscription.init (Json.str "chan") true).on_event_set = true ∧
    ((Subscription.init (Json.str "chan") true).create false).1.state
      = "connection_pending" ∧
    ((Subscription.init (Json.str "chan") true).create false).2 = [] :=
  ⟨rfl, rfl, rfl⟩

/-- C2 amended: every transition that goes through `_set_state` — `create`
with the connection established, `remove`, the `subscribed` transition and
the `rejected` transition — invokes the callback with the new state, after
the state field is updated (the resulting state equals the reported one)
and, for `subscribed`, before the queue flush sends; but the transition to
`connection_pending` in `create()` bypasses `_set_state` and invokes no
callback. -/
theorem C2_set_state_transitions_emit_event (s : Subscription)
    (h : s.on_event_set = true) :
    ((s.create true).1.state = "pending" ∧
      (s.create true).2 = [Effect.sent s.subscribe_frame, Effect.event "pending"]) ∧
    (s.remove.1.state = "unsubscribed" ∧
      s.remove.2 = [Effect.sent s.unsubscribe_frame, Effect.event "unsubscribed"]) ∧
    (s.subscribed.1.state = "subscribed" ∧
      s.subscribed.2 = Effect.event "subscribed"
        :: s.message_queue.map (fun m => Effect.sent (s.message_frame m))) ∧
    (s.rejected.1.state = "rejected" ∧ s.rejected.2 = [Effect.event "rejected"]) ∧
    ((s.create false).1.state = "connection_pending" ∧ (s.create false).2 = []) := by
  refine ⟨⟨?_, ?_⟩, ⟨?_, ?_⟩, ⟨?_, ?_⟩, ⟨?_, ?_⟩, ⟨rfl, rfl⟩⟩ <;>
    simp [Subscription.create, Subscription.remove, Subscription.set_state, h,
      Subscription.subscribed_eq, Subscription.rejected_eq]

/-- A concrete subscription with the `on_event` callback set, used to
witness C2. -/
def c2Sample : Subscription := Subscription.init (Json.str "c") true

/-- C2 witness: the amended statement instantiated at the concrete
subscription `c2Sample`, whose callback is set. -/
theorem C2_witness :
    c2Sample.on_event_set = true ∧
    (((c2Sample.create true).1.state = "pending" ∧
      (c2Sample.create true).2
        = [Effect.sent c2Sample.subscribe_frame, Effect.event "pending"]) ∧
    (c2Sample.remove.1.state = "unsubscribed" ∧
      c2Sample.remove.2
        = [Effect.sent c2Sample.unsubscribe_frame, Effect.event "unsubscribed"]) ∧
    (c2Sample.subscribed.1.state = "subscribed" ∧
      c2Sample.subscribed.2 = Effect.event "subscribed"
        :: c2Sample.message_queue.map (fun m => Effect.sent (c2Sample.message_frame m))) ∧
    (c2Sample.rejected.1.state = "rejected" ∧
      c2Sample.rejected.2 = [Effect.event "rejected"]) ∧
    ((c2Sample.create false).1.state = "connection_pending" ∧
      (c2Sample.create false).2 = [])) :=
  ⟨rfl, C2_set_state_transitions_emit_event c2Sample rfl⟩

/-- C4: from state `pending` or `connection_pending` with N queued
messages, a `confirm_subscription` frame sets the state to `subscribed`
and the produced effects are exactly the state event (when the callback is
set) followed by the N message frames in original enqueue order — so every
send happens after the state is already `subscribed`. -/
theorem C4_confirm_flushes_queue_in_order (s : Subscription)
    (_h : s.state = "pending" ∨ s.state = "connection_pending") :
    (s.received [("type", Json.str "confirm_subscription")]).1.state = "subscribed" ∧
    (s.received [("type", Json.str "confirm_subscription")]).2 =
      (if s.on_event_set then [Effect.event "subscribed"] else [])
        ++ s.message_queue.map (fun m => Effect.sent (s.message_frame m)) := by
  rw [Subscription.received_confirm, Subscription.subscribed_eq]
  exact ⟨rfl, rfl⟩

/-- A concrete subscription in state `pending` with two queued messages,
used to witness C4. -/
def c4Sample : Subscription :=
  { identifier := Json.str "c"
    state := "pending"
    message_queue := [Message.mk (Json.str "a"), Message.mk (Json.str "b")]
    on_event_set := true
    receive_callback_set := false }

/-- C4 witness: the flush statement instantiated at the concrete pending
subscription `c4Sample` with two queued messages. -/
theorem C4_witness :
    (c4Sample.state = "pending" ∨ c4Sample.state = "connection_pending") ∧
    ((c4Sample.received [("type", Json.str "confirm_subscription")]).1.state
        = "subscribed" ∧
      (c4Sample.received [("type", Json.str "confirm_subscription")]).2 =
        (if c4Sample.on_event_set then [Effect.event "subscribed"] else [])
          ++ c4Sample.message_queue.map
              (fun m => Effect.sent (c4Sample.message_frame m))) :=
  ⟨Or.inl rfl, C4_confirm_flushes_queue_in_order c4Sample (Or.inl rfl)⟩

/-- C5: from state `pending`, a `reject_subscription` frame sets the state
to `rejected`, empties the message queue, and a subsequent `send` on the
resulting subscription produces no frame (no effect at all) and no state
change. -/
theorem C5_reject_clears_queue_and_silences_send (s : Subscription) (m : Message)
    (_h : s.state = "pending") :
    (s.received [("type", Json.str "reject_subscription")]).1.state = "rejected" ∧
    (s.received [("type", Json.str "reject_subscription")]).1.message_queue = [] ∧
    (s.received [("type", Json.str "reject_subscription")]).1.send m
      = ((s.received [("type", Json.str "reject_subscription")]).1, []) := by
  rw [Subscription.received_reject, Subscription.rejected_eq]
  exact ⟨rfl, rfl,
    Subscription.send_of_unsubscribed_or_rejected _ m (Or.inr rfl)⟩

/-- A concrete subscription in state `pending` with one queued message,
used to witness C5. -/
def c5Sample : Subscription :=
  { identifier := Json.str "c"
    state := "pending"
    message_queue := [Message.mk (Json.str "a")]
    on_event_set := false
    receive_callback_set := false }

/-- C5 witness: the rejection statement instantiated at the concrete
pending subscription `c5Sample`. -/
theorem C5_witness :
    c5Sample.state = "pending" ∧
    ((c5Sample.received [("type", Json.str "reject_subscription")]).1.state
        = "rejected" ∧
      (c5Sample.received [("type", Json.str "reject_subscription")]).1.message_queue
        = [] ∧
      (c5Sample.received [("type", Json.str "reject_subscription")]).1.send
          (Message.mk (Json.str "b"))
        = ((c5Sample.received [("type", Json.str "reject_subscription")]).1, [])) :=
  ⟨rfl, C5_reject_clears_queue_and_silences_send c5Sample
    (Message.mk (Json.str "b")) rfl⟩

/-- C8: the flush on confirmation does not drain the queue — after a
`confirm_subscription` frame the queue still holds the same messages, so a
second `confirm_subscription` frame re-sends every one of them again (same
frames, same order). -/
theorem C8_flush_keeps_queue_second_confirm_resends (s : Subscription) :
    (s.received [("type", Json.str "confirm_subscription")]).1.message_queue
      = s.message_queue ∧
    ((s.received [("type", Json.str "confirm_subscription")]).1.received
        [("type", Json.str "confirm_subscription")]).2 =
      (if s.on_event_set then [Effect.event "subscribed"] else [])
        ++ s.message_queue.map (fun m => Effect.sent (s.message_frame m)) := by
  rw [Subscription.received_confirm, Subscription.subscribed_eq]
  refine ⟨rfl, ?_⟩
  rw [Subscription.received_confirm, Subscription.subscribed_eq]
  rfl

/-- C10: `remove()` does not touch the message queue — everything queued
before the call is still queued after it, even though the state is reset
to `unsubscribed`; a later `confirm_subscription` frame therefore flushes
(sends) all of those messages. -/
theorem C10_remove_keeps_queue_later_confirm_flushes (s : Subscription) :
    s.remove.1.message_queue = s.message_queue ∧
    s.remove.1.state = "unsubscribed" ∧
    (s.remove.1.received [("type", Json.str "confirm_subscription")]).2 =
      (if s.on_event_set then [Effect.event "subscribed"] else [])
        ++ s.message_queue.map (fun m => Effect.sent (s.message_frame m)) := by
  refine ⟨rfl, rfl, ?_⟩
  rw [Subscription.received_confirm, Subscription.subscribed_eq]
  rfl
